import Mathlib

/-!
Shallow embedding of the Customer Health Intelligence Dashboard scoring core
(`backend/server.py`): the `CustomerHealthScorer` class (health score,
churn-risk tier, lifetime value, score breakdown, date handling with the
degraded fallback) and the churn-factor explainer inside
`get_churn_predictions`.

Modelling conventions:
- Python floats are modelled as rationals (ℚ); `round(x, 2)` is modelled as
  round-half-to-even at two decimal places on the rational value.
- `datetime` values are modelled at whole-day granularity: a datetime is an
  integer day number, and the evaluation instant `datetime.now()` is an
  explicit `now : Int` parameter, so `(datetime.now() - d).days = now - d`.
- The dynamically-typed `last_order_date` dict entry is modelled by `PyVal`,
  covering the values the code distinguishes: `None` (also a missing key),
  a string, a date/datetime, and any other (numeric) value.
- `datetime.fromisoformat` is modelled by `fromisoformat`, a parser for the
  `YYYY-MM-DD` form returning `Option` (`none` = `ValueError`).
- The `try/except` in `calculate_health_score` is modelled by propagating the
  fallible date computation as `Except Unit Int` and pattern-matching.
-/

namespace CHD

/-- A Python value that may be stored under `last_order_date` in the customer
dict: `None`/missing, an ISO string, a `date`/`datetime` (as a day number),
or some other value such as a number. -/
inductive PyVal where
  | pyNone : PyVal
  | pyStr (s : String) : PyVal
  | pyDate (d : Int) : PyVal
  | pyInt (n : Int) : PyVal
deriving DecidableEq, Repr

/-- Python truthiness test used by `if not last_order_date`: `None`, the empty
string and the number `0` are falsy; `date`/`datetime` objects are always
truthy. -/
def PyVal.falsy : PyVal → Bool
  | .pyNone => true
  | .pyStr s => s = ""
  | .pyDate _ => false
  | .pyInt n => n = 0

/-- Gregorian leap-year test. -/
def isLeap (y : Int) : Bool := (y % 4 == 0 && y % 100 != 0) || y % 400 == 0

/-- Number of days in month `m` of year `y` (1-based month). -/
def daysInMonth (y m : Int) : Int :=
  if m = 2 then (if isLeap y then 29 else 28)
  else if m = 4 ∨ m = 6 ∨ m = 9 ∨ m = 11 then 30
  else 31

/-- Civil date to epoch-day count (days since 1970-01-01), the standard
days-from-civil computation; models the timeline position of a `datetime`. -/
def toEpochDay (y m d : Int) : Int :=
  let y' := if m ≤ 2 then y - 1 else y
  let era := (if y' ≥ 0 then y' else y' - 399) / 400
  let yoe := y' - era * 400
  let mp := (m + 9) % 12
  let doy := (153 * mp + 2) / 5 + d - 1
  let doe := yoe * 365 + yoe / 4 - yoe / 100 + doy
  era * 146097 + doe - 719468

/-- Interpret a list of characters as a decimal number, `none` unless all are
digits (and the list is non-empty). -/
def digitsVal (cs : List Char) : Option Nat :=
  if cs ≠ [] ∧ cs.all Char.isDigit then
    some (cs.foldl (fun a c => a * 10 + (c.toNat - 48)) 0)
  else none

/-- Model of `datetime.fromisoformat` restricted to the `YYYY-MM-DD` date
form that this system's ISO strings use: `none` models the `ValueError`
raised on a malformed string. -/
def fromisoformat (s : String) : Option Int :=
  match s.toList with
  | [y1, y2, y3, y4, '-', m1, m2, '-', d1, d2] =>
    match digitsVal [y1, y2, y3, y4], digitsVal [m1, m2], digitsVal [d1, d2] with
    | some y, some m, some d =>
      if 1 ≤ m ∧ m ≤ 12 ∧ 1 ≤ (d : Int) ∧ (d : Int) ≤ daysInMonth y m then
        some (toEpochDay y m d)
      else none
    | _, _, _ => none
  | _ => none

/-- `CustomerHealthScorer._days_since_last_order`, with `now` the evaluation
instant.  `.error ()` models an exception escaping to the caller's
`try/except`: `ValueError` from `fromisoformat` on a truthy malformed string,
or `TypeError` from `datetime.now() - x` on a truthy non-date non-string. -/
def days_since_last_order (now : Int) (v : PyVal) : Except Unit Int :=
  if v.falsy then .ok 365
  else
    match v with
    | .pyNone => .ok 365
    | .pyStr s =>
      match fromisoformat s with
      | some d => .ok (now - d)
      | none => .error ()
    | .pyDate d => .ok (now - d)
    | .pyInt _ => .error ()

/-- The customer activity snapshot consumed by `calculate_health_score`
(the fields the function reads from the customer dict). -/
structure Snapshot where
  last_order_date : PyVal
  total_orders : Int
  total_spent : ℚ
  support_tickets : Int
  avg_rating : ℚ
deriving DecidableEq, Repr

/-- Round-half-to-even of a rational to the nearest integer, the rounding mode
of Python's `round`. -/
def roundHalfEven (x : ℚ) : Int :=
  let f := x.floor
  let r := x - (f : ℚ)
  if r < 1 / 2 then f
  else if (1 : ℚ) / 2 < r then f + 1
  else if f % 2 = 0 then f else f + 1

/-- `round(x, 2)`: round-half-to-even at two decimal places. -/
def round2 (x : ℚ) : ℚ := (roundHalfEven (100 * x) : ℚ) / 100

/-- Recency sub-score: `max(0, 30 - (last_order_days / 30) * 30)`. -/
def recency_score (last_order_days : Int) : ℚ :=
  max 0 (30 - ((last_order_days : ℚ) / 30) * 30)

/-- Frequency sub-score: `min(25, total_orders * 2)`. -/
def frequency_score (total_orders : Int) : ℚ :=
  min 25 ((total_orders : ℚ) * 2)

/-- Monetary sub-score: `min(25, total_spent / 100)`. -/
def monetary_score (total_spent : ℚ) : ℚ :=
  min 25 (total_spent / 100)

/-- Support sub-score: `max(0, 10 - support_tickets)`. -/
def support_score (support_tickets : Int) : ℚ :=
  max 0 (10 - (support_tickets : ℚ))

/-- Rating sub-score: `avg_rating * 2`. -/
def rating_score (avg_rating : ℚ) : ℚ := avg_rating * 2

/-- The unrounded composite `total_score`: sum of the five sub-scores. -/
def total_score (days orders : Int) (spent : ℚ) (tickets : Int) (rating : ℚ) : ℚ :=
  recency_score days + frequency_score orders + monetary_score spent
    + support_score tickets + rating_score rating

/-- Churn-risk tier. -/
inductive ChurnRisk where
  | low | medium | high
deriving DecidableEq, Repr

/-- The threshold cascade `if total_score >= 70 ... elif total_score >= 40 ...
else ...` applied to a score. -/
def churn_risk_of (score : ℚ) : ChurnRisk :=
  if 70 ≤ score then .low
  else if 40 ≤ score then .medium
  else .high

/-- The dict returned by `calculate_health_score`; the breakdown is a list of
(key, value) pairs in the dict's insertion order. -/
structure HealthResult where
  health_score : ℚ
  churn_risk : ChurnRisk
  lifetime_value : ℚ
  score_breakdown : List (String × ℚ)
deriving DecidableEq, Repr

/-- The degraded safe-default assessment returned by the `except` branch. -/
def fallbackResult : HealthResult :=
  { health_score := 0
    churn_risk := .high
    lifetime_value := 0
    score_breakdown := [] }

/-- `CustomerHealthScorer.calculate_health_score`, with `now` the evaluation
instant.  The date computation is the only fallible step; its failure lands in
the `except` branch. -/
def calculate_health_score (now : Int) (c : Snapshot) : HealthResult :=
  match days_since_last_order now c.last_order_date with
  | .error _ => fallbackResult
  | .ok last_order_days =>
    let recency := recency_score last_order_days
    let frequency := frequency_score c.total_orders
    let monetary := monetary_score c.total_spent
    let support := support_score c.support_tickets
    let rating := rating_score c.avg_rating
    let total := recency + frequency + monetary + support + rating
    let lifetime_value := c.total_spent * (1 + total / 100)
    { health_score := round2 total
      churn_risk := churn_risk_of total
      lifetime_value := round2 lifetime_value
      score_breakdown :=
        [("recency", round2 recency), ("frequency", round2 frequency),
         ("monetary", round2 monetary), ("support", round2 support),
         ("rating", round2 rating)] }

/-- The customer document fields read by the explainer loop in
`get_churn_predictions`; every field is read with `.get` (so may be absent),
and `last_order_date` is a `datetime` (day number) or absent. -/
structure CustomerRecord where
  total_orders : Option Int
  support_tickets : Option Int
  avg_rating : Option ℚ
  last_order_date : Option Int
  health_score : Option ℚ
deriving DecidableEq, Repr

/-- The `key_factors` list built by `get_churn_predictions`: four independent
boolean triggers appended in source order. -/
def key_factors (now : Int) (c : CustomerRecord) : List String :=
  (if c.total_orders.getD 0 < 2 then ["Low purchase frequency"] else [])
    ++ (if 3 < c.support_tickets.getD 0 then ["High support ticket volume"] else [])
    ++ (if c.avg_rating.getD 0 < 3 then ["Low product satisfaction"] else [])
    ++ (match c.last_order_date with
        | some d => if 90 < now - d then ["No recent purchases"] else []
        | none => [])

/-- The `recommendations` list built by `get_churn_predictions`: one fixed
recommendation appended per factor label found in `key_factors`, in source
order. -/
def recommended_actions (now : Int) (c : CustomerRecord) : List String :=
  let kf := key_factors now c
  (if "Low purchase frequency" ∈ kf then ["Send personalized product recommendations"] else [])
    ++ (if "High support ticket volume" ∈ kf then ["Assign dedicated account manager"] else [])
    ++ (if "Low product satisfaction" ∈ kf then ["Offer product training or alternatives"] else [])
    ++ (if "No recent purchases" ∈ kf then ["Send re-engagement campaign with discount"] else [])

/-- The spec's fixed 1:1 recommendation table, keyed by factor label
(spec §4.2); used to state that `recommended_actions` is the image of
`key_factors` under this table. -/
def recommendation_table : String → String
  | "Low purchase frequency" => "Send personalized product recommendations"
  | "High support ticket volume" => "Assign dedicated account manager"
  | "Low product satisfaction" => "Offer product training or alternatives"
  | "No recent purchases" => "Send re-engagement campaign with discount"
  | _ => ""

/-- `churn_probability` as computed in `get_churn_predictions`:
`round((100 - customer.get('health_score', 0)) / 100, 2)`. -/
def churn_probability (c : CustomerRecord) : ℚ :=
  round2 ((100 - c.health_score.getD 0) / 100)

/-! ### Helper lemmas about rounding -/

theorem ratFloor_eq_intFloor (x : ℚ) : x.floor = ⌊x⌋ := rfl

theorem roundHalfEven_eq (x : ℚ) :
    roundHalfEven x =
      if x - (⌊x⌋ : ℚ) < 1 / 2 then ⌊x⌋
      else if (1 : ℚ) / 2 < x - (⌊x⌋ : ℚ) then ⌊x⌋ + 1
      else if ⌊x⌋ % 2 = 0 then ⌊x⌋ else ⌊x⌋ + 1 := rfl

/-- The rounded value is at least the floor. -/
theorem floor_le_roundHalfEven (x : ℚ) : ⌊x⌋ ≤ roundHalfEven x := by
  rw [roundHalfEven_eq]
  split_ifs <;> omega

/-- The rounded value is at most the floor plus one. -/
theorem roundHalfEven_le_floor_add_one (x : ℚ) : roundHalfEven x ≤ ⌊x⌋ + 1 := by
  rw [roundHalfEven_eq]
  split_ifs <;> omega

/-- Round-half-to-even is monotone. -/
theorem roundHalfEven_mono {x y : ℚ} (h : x ≤ y) :
    roundHalfEven x ≤ roundHalfEven y := by
  have hf : ⌊x⌋ ≤ ⌊y⌋ := Int.floor_mono h
  rcases lt_or_eq_of_le hf with hlt | heq
  · calc roundHalfEven x ≤ ⌊x⌋ + 1 := roundHalfEven_le_floor_add_one x
      _ ≤ ⌊y⌋ := by omega
      _ ≤ roundHalfEven y := floor_le_roundHalfEven y
  · rw [roundHalfEven_eq, roundHalfEven_eq, ← heq]
    have hr : x - (⌊x⌋ : ℚ) ≤ y - (⌊x⌋ : ℚ) := by linarith
    split_ifs <;> first | omega | linarith

/-- `round2` is monotone. -/
theorem round2_mono {x y : ℚ} (h : x ≤ y) : round2 x ≤ round2 y := by
  unfold round2
  have : roundHalfEven (100 * x) ≤ roundHalfEven (100 * y) :=
    roundHalfEven_mono (by linarith)
  exact div_le_div_of_nonneg_right (by exact_mod_cast this) (by norm_num)

/-- Evaluation rule: if `x` lies in `[z, z + 1/2)` then it rounds to `z`. -/
theorem roundHalfEven_eq_of_lt_half {x : ℚ} {z : ℤ}
    (h1 : (z : ℚ) ≤ x) (h2 : x < (z : ℚ) + 1 / 2) : roundHalfEven x = z := by
  have hz : ⌊x⌋ = z := by
    rw [Int.floor_eq_iff]
    refine ⟨h1, ?_⟩
    linarith
  rw [roundHalfEven_eq, hz, if_pos (show x - (z : ℚ) < 1 / 2 by linarith)]

/-- Evaluation rule: if `x` lies in `(z + 1/2, z + 1]` then it rounds to
`z + 1`. -/
theorem roundHalfEven_eq_of_half_lt {x : ℚ} {z : ℤ}
    (h1 : (z : ℚ) + 1 / 2 < x) (h2 : x ≤ (z : ℚ) + 1) : roundHalfEven x = z + 1 := by
  rcases eq_or_lt_of_le h2 with heq | hlt
  · have hz : ⌊x⌋ = z + 1 := by
      rw [heq]
      have hcast : ((z : ℚ) + 1) = ((z + 1 : ℤ) : ℚ) := by push_cast; ring
      rw [hcast]
      exact Int.floor_intCast (z + 1)
    rw [roundHalfEven_eq, hz,
      if_pos (show x - ((z + 1 : ℤ) : ℚ) < 1 / 2 by push_cast; linarith)]
  · have hz : ⌊x⌋ = z := by
      rw [Int.floor_eq_iff]
      constructor
      · calc (z : ℚ) ≤ (z : ℚ) + 1 / 2 := by linarith
          _ ≤ x := le_of_lt h1
      · linarith
    rw [roundHalfEven_eq, hz,
      if_neg (show ¬(x - (z : ℚ) < 1 / 2) by linarith),
      if_pos (show (1 : ℚ) / 2 < x - (z : ℚ) by linarith)]

/-- Evaluation rule for `round2` below the half-way point. -/
theorem round2_eq_of_lt_half {x : ℚ} {z : ℤ}
    (h1 : (z : ℚ) ≤ 100 * x) (h2 : 100 * x < (z : ℚ) + 1 / 2) :
    round2 x = (z : ℚ) / 100 := by
  unfold round2
  rw [roundHalfEven_eq_of_lt_half h1 h2]

/-- Evaluation rule for `round2` above the half-way point. -/
theorem round2_eq_of_half_lt {x : ℚ} {z : ℤ}
    (h1 : (z : ℚ) + 1 / 2 < 100 * x) (h2 : 100 * x ≤ (z : ℚ) + 1) :
    round2 x = ((z : ℚ) + 1) / 100 := by
  unfold round2
  rw [roundHalfEven_eq_of_half_lt h1 h2]
  push_cast
  ring_nf

/-- `round2` fixes integers. -/
theorem round2_intCast (z : ℤ) : round2 (z : ℚ) = z := by
  have := round2_eq_of_lt_half (x := (z : ℚ)) (z := 100 * z)
    (by push_cast; linarith) (by push_cast; linarith)
  rw [this]
  push_cast
  ring

/-! ### Basic shape lemmas about `calculate_health_score` -/

/-- On the non-error path, `calculate_health_score` returns the rounded
composite, the tier of the unrounded composite, the rounded lifetime value and
the five-entry breakdown. -/
theorem calculate_health_score_ok {now : Int} {c : Snapshot} {d : Int}
    (h : days_since_last_order now c.last_order_date = .ok d) :
    calculate_health_score now c =
      { health_score :=
          round2 (total_score d c.total_orders c.total_spent c.support_tickets c.avg_rating)
        churn_risk :=
          churn_risk_of (total_score d c.total_orders c.total_spent c.support_tickets c.avg_rating)
        lifetime_value :=
          round2 (c.total_spent *
            (1 + total_score d c.total_orders c.total_spent c.support_tickets c.avg_rating / 100))
        score_breakdown :=
          [("recency", round2 (recency_score d)),
           ("frequency", round2 (frequency_score c.total_orders)),
           ("monetary", round2 (monetary_score c.total_spent)),
           ("support", round2 (support_score c.support_tickets)),
           ("rating", round2 (rating_score c.avg_rating))] } := by
  unfold calculate_health_score
  rw [h]
  rfl

/-- On the error path, `calculate_health_score` returns the degraded
safe-default assessment. -/
theorem calculate_health_score_err {now : Int} {c : Snapshot}
    (h : days_since_last_order now c.last_order_date = .error ()) :
    calculate_health_score now c = fallbackResult := by
  unfold calculate_health_score
  rw [h]

/-- `_days_since_last_order` on a `date`/`datetime` value subtracts it from
the evaluation instant. -/
theorem days_since_pyDate (now d : Int) :
    days_since_last_order now (.pyDate d) = .ok (now - d) := rfl

/-- If `100 * x` is an integer then `round2` fixes `x`. -/
theorem round2_eq_self {x : ℚ} {z : ℤ} (h : 100 * x = (z : ℚ)) : round2 x = x := by
  have h1 : (z : ℚ) ≤ 100 * x := le_of_eq h.symm
  have h2 : 100 * x < (z : ℚ) + 1 / 2 := by rw [h]; linarith
  rw [round2_eq_of_lt_half h1 h2, div_eq_iff (by norm_num : (100 : ℚ) ≠ 0)]
  linarith

/-- `(d / 30) * 30 = d` over ℚ. -/
theorem div30_mul30 (d : Int) : ((d : ℚ) / 30) * 30 = (d : ℚ) :=
  div_mul_cancel₀ _ (by norm_num)

/-! ### Monotonicity of the sub-scores -/

theorem recency_score_anti {d1 d2 : Int} (h : d1 ≤ d2) :
    recency_score d2 ≤ recency_score d1 := by
  unfold recency_score
  have hc : (d1 : ℚ) ≤ (d2 : ℚ) := by exact_mod_cast h
  rw [div30_mul30, div30_mul30]
  exact max_le_max le_rfl (by linarith)

theorem frequency_score_mono {o1 o2 : Int} (h : o1 ≤ o2) :
    frequency_score o1 ≤ frequency_score o2 := by
  unfold frequency_score
  have hc : (o1 : ℚ) ≤ (o2 : ℚ) := by exact_mod_cast h
  exact min_le_min le_rfl (by linarith)

theorem monetary_score_mono {s1 s2 : ℚ} (h : s1 ≤ s2) :
    monetary_score s1 ≤ monetary_score s2 := by
  unfold monetary_score
  exact min_le_min le_rfl (by linarith)

theorem support_score_anti {t1 t2 : Int} (h : t1 ≤ t2) :
    support_score t2 ≤ support_score t1 := by
  unfold support_score
  have hc : (t1 : ℚ) ≤ (t2 : ℚ) := by exact_mod_cast h
  exact max_le_max le_rfl (by linarith)

theorem rating_score_mono {r1 r2 : ℚ} (h : r1 ≤ r2) :
    rating_score r1 ≤ rating_score r2 := by
  unfold rating_score
  linarith

/-! ### Range bounds for the sub-scores -/

theorem recency_score_nonneg (d : Int) : 0 ≤ recency_score d := le_max_left _ _

theorem recency_score_le_30 {d : Int} (hd : 0 ≤ d) : recency_score d ≤ 30 := by
  unfold recency_score
  have hc : (0 : ℚ) ≤ (d : ℚ) := by exact_mod_cast hd
  rw [div30_mul30]
  exact max_le (by norm_num) (by linarith)

theorem frequency_score_nonneg {o : Int} (ho : 0 ≤ o) : 0 ≤ frequency_score o := by
  unfold frequency_score
  have hc : (0 : ℚ) ≤ (o : ℚ) := by exact_mod_cast ho
  exact le_min (by norm_num) (by linarith)

theorem frequency_score_le_25 (o : Int) : frequency_score o ≤ 25 := min_le_left _ _

theorem monetary_score_nonneg {s : ℚ} (hs : 0 ≤ s) : 0 ≤ monetary_score s := by
  unfold monetary_score
  exact le_min (by norm_num) (by positivity)

theorem monetary_score_le_25 (s : ℚ) : monetary_score s ≤ 25 := min_le_left _ _

theorem support_score_nonneg (t : Int) : 0 ≤ support_score t := le_max_left _ _

theorem support_score_le_10 {t : Int} (ht : 0 ≤ t) : support_score t ≤ 10 := by
  unfold support_score
  have hc : (0 : ℚ) ≤ (t : ℚ) := by exact_mod_cast ht
  exact max_le (by norm_num) (by linarith)

/-! ### Monotonicity of the composite `total_score` in each input -/

theorem total_score_anti_days {d1 d2 o : Int} {s : ℚ} {t : Int} {r : ℚ} (h : d1 ≤ d2) :
    total_score d2 o s t r ≤ total_score d1 o s t r := by
  unfold total_score
  have := recency_score_anti h
  linarith

theorem total_score_mono_orders {d o1 o2 : Int} {s : ℚ} {t : Int} {r : ℚ} (h : o1 ≤ o2) :
    total_score d o1 s t r ≤ total_score d o2 s t r := by
  unfold total_score
  have := frequency_score_mono h
  linarith

theorem total_score_mono_spent {d o : Int} {s1 s2 : ℚ} {t : Int} {r : ℚ} (h : s1 ≤ s2) :
    total_score d o s1 t r ≤ total_score d o s2 t r := by
  unfold total_score
  have := monetary_score_mono h
  linarith

theorem total_score_anti_tickets {d o : Int} {s : ℚ} {t1 t2 : Int} {r : ℚ} (h : t1 ≤ t2) :
    total_score d o s t2 r ≤ total_score d o s t1 r := by
  unfold total_score
  have := support_score_anti h
  linarith

theorem total_score_mono_rating {d o : Int} {s : ℚ} {t : Int} {r1 r2 : ℚ} (h : r1 ≤ r2) :
    total_score d o s t r1 ≤ total_score d o s t r2 := by
  unfold total_score
  have := rating_score_mono h
  linarith

/-! ### Claim C1 -/

/-- C1, counterexample: with last order today, 5 orders, $1999.70 spent, no
tickets and rating 0, the unrounded composite is 69.997, so the **returned**
`healthScore` is 70.0 while the returned `churnRisk` is "Medium", not "Low":
the returned churn risk is not the claimed step function of the (rounded)
returned composite `healthScore`, whose thresholds demand
`healthScore >= 70 → Low`. -/
theorem c1_counterexample :
    (calculate_health_score 0 ⟨.pyDate 0, 5, 19997/10, 0, 0⟩).health_score = 70
    ∧ (70 : ℚ) ≤ 70
    ∧ (calculate_health_score 0 ⟨.pyDate 0, 5, 19997/10, 0, 0⟩).churn_risk ≠ .low := by
  have hdy : days_since_last_order 0 (.pyDate 0) = .ok 0 := rfl
  rw [calculate_health_score_ok (c := ⟨.pyDate 0, 5, 19997/10, 0, 0⟩) hdy]
  have ht : total_score 0 5 (19997/10) 0 0 = 69997/1000 := by
    unfold total_score recency_score frequency_score monetary_score support_score rating_score
    norm_num
  dsimp only
  rw [ht]
  refine ⟨?_, le_refl _, ?_⟩
  · rw [round2_eq_of_half_lt (z := 6999) (by norm_num) (by norm_num)]
    norm_num
  · unfold churn_risk_of
    rw [if_neg (by norm_num), if_pos (by norm_num)]
    exact fun h => ChurnRisk.noConfusion h

/-- C1 (amended): the returned `churnRisk` is the step function
`churn_risk_of` applied to the **unrounded** composite total score (not to the
2-decimal-rounded returned `healthScore`), and that step function partitions
the line at exactly 40 and 70 with no gap or overlap: `Low` exactly on
`[70, ∞)`, `Medium` exactly on `[40, 70)`, and `High` exactly on
`(-∞, 40)`. -/
theorem c1_churn_risk_step_function :
    (∀ (now : Int) (c : Snapshot) (d : Int),
        days_since_last_order now c.last_order_date = .ok d →
        (calculate_health_score now c).churn_risk =
          churn_risk_of (total_score d c.total_orders c.total_spent c.support_tickets c.avg_rating))
    ∧ (∀ x : ℚ,
        (churn_risk_of x = .low ↔ 70 ≤ x)
        ∧ (churn_risk_of x = .medium ↔ 40 ≤ x ∧ x < 70)
        ∧ (churn_risk_of x = .high ↔ x < 40)) := by
  constructor
  · intro now c d h
    rw [calculate_health_score_ok h]
  · intro x
    unfold churn_risk_of
    split_ifs with h1 h2
    · exact ⟨⟨fun _ => h1, fun _ => rfl⟩,
        ⟨fun h => (nomatch h), fun h => absurd h1 (not_le.mpr h.2)⟩,
        ⟨fun h => (nomatch h), fun h => absurd h1 (not_le.mpr (by linarith))⟩⟩
    · exact ⟨⟨fun h => (nomatch h), fun h => absurd h h1⟩,
        ⟨fun _ => ⟨h2, not_le.mp h1⟩, fun _ => rfl⟩,
        ⟨fun h => (nomatch h), fun h => absurd h2 (not_le.mpr h)⟩⟩
    · exact ⟨⟨fun h => (nomatch h), fun h => absurd h h1⟩,
        ⟨fun h => (nomatch h), fun h => absurd h.1 h2⟩,
        ⟨fun _ => not_le.mp h2, fun _ => rfl⟩⟩

/-- Witness for C1 at a concrete snapshot. -/
theorem c1_witness :
    (calculate_health_score 0 ⟨.pyNone, 1, 50, 2, 3⟩).churn_risk =
      churn_risk_of (total_score 365 1 50 2 3) :=
  c1_churn_risk_step_function.1 0 ⟨.pyNone, 1, 50, 2, 3⟩ 365 rfl

/-! ### Claim C2 -/

/-- C2: whenever the internal date computation raises (models any internal
exception, e.g. a malformed `last_order_date` string), `calculate_health_score`
returns the fixed safe-default assessment `healthScore = 0`,
`churnRisk = High`, `lifetimeValue = 0`, empty `scoreBreakdown` — never a
healthy result. -/
theorem c2_error_fallback :
    ∀ (now : Int) (c : Snapshot),
      days_since_last_order now c.last_order_date = .error () →
      calculate_health_score now c =
        { health_score := 0, churn_risk := .high, lifetime_value := 0,
          score_breakdown := [] } := by
  intro now c h
  exact calculate_health_score_err h

/-- Witness for C2: a truthy non-ISO `last_order_date` string. -/
theorem c2_witness :
    days_since_last_order 0 (.pyStr "not-a-date") = .error ()
    ∧ calculate_health_score 0 ⟨.pyStr "not-a-date", 8, 500, 1, 4⟩ =
        { health_score := 0, churn_risk := .high, lifetime_value := 0,
          score_breakdown := [] } :=
  ⟨rfl, c2_error_fallback 0 ⟨.pyStr "not-a-date", 8, 500, 1, 4⟩ rfl⟩

/-! ### Claim C3 -/

/-- C3, counterexample: a future-dated last order (30 days in the future, so
`daysSinceLastOrder = -30`) yields a recency sub-score of 60, violating the
claimed bound `recency <= 30`; the value 60 is what the non-error path of
`calculate_health_score` reports in its breakdown. -/
theorem c3_counterexample :
    days_since_last_order 0 (.pyDate 30) = .ok (-30)
    ∧ (calculate_health_score 0 ⟨.pyDate 30, 0, 0, 0, 0⟩).score_breakdown =
        [("recency", 60), ("frequency", 0), ("monetary", 0), ("support", 10), ("rating", 0)]
    ∧ ¬ recency_score (-30) ≤ 30 := by
  have hr : recency_score (-30) = 60 := by
    unfold recency_score
    norm_num
  have hdy : days_since_last_order 0 (.pyDate 30) = .ok (-30) := by
    rw [days_since_pyDate]
    norm_num
  refine ⟨hdy, ?_, by rw [hr]; norm_num⟩
  rw [calculate_health_score_ok (c := ⟨.pyDate 30, 0, 0, 0, 0⟩) (d := -30) hdy]
  dsimp only
  have hf : frequency_score 0 = 0 := by unfold frequency_score; norm_num
  have hm : monetary_score 0 = 0 := by unfold monetary_score; norm_num
  have hs : support_score 0 = 10 := by unfold support_score; norm_num
  have hg : rating_score 0 = 0 := by unfold rating_score; norm_num
  rw [hr, hf, hm, hs, hg]
  rw [round2_eq_self (x := (60 : ℚ)) (z := 6000) (by norm_num),
    round2_eq_self (x := (0 : ℚ)) (z := 0) (by norm_num),
    round2_eq_self (x := (10 : ℚ)) (z := 1000) (by norm_num)]

/-- C3 (amended): for snapshots with non-negative `daysSinceLastOrder`
(i.e. excluding future-dated last orders) and data-model-conformant
non-negative `totalOrders`, `totalSpent` and `supportTickets`, the sub-scores
lie in their declared ranges: `0 ≤ recency ≤ 30`, `0 ≤ frequency ≤ 25`,
`0 ≤ monetary ≤ 25` and `0 ≤ support ≤ 10`. -/
theorem c3_sub_score_ranges :
    ∀ (d orders : Int) (spent : ℚ) (tickets : Int),
      0 ≤ d → 0 ≤ orders → 0 ≤ spent → 0 ≤ tickets →
      (0 ≤ recency_score d ∧ recency_score d ≤ 30)
      ∧ (0 ≤ frequency_score orders ∧ frequency_score orders ≤ 25)
      ∧ (0 ≤ monetary_score spent ∧ monetary_score spent ≤ 25)
      ∧ (0 ≤ support_score tickets ∧ support_score tickets ≤ 10) :=
  fun d orders spent tickets hd ho hs ht =>
    ⟨⟨recency_score_nonneg d, recency_score_le_30 hd⟩,
     ⟨frequency_score_nonneg ho, frequency_score_le_25 orders⟩,
     ⟨monetary_score_nonneg hs, monetary_score_le_25 spent⟩,
     ⟨support_score_nonneg tickets, support_score_le_10 ht⟩⟩

/-- Witness for C3 (amended) at a concrete snapshot. -/
theorem c3_witness :
    (0 ≤ recency_score 12 ∧ recency_score 12 ≤ 30)
    ∧ (0 ≤ frequency_score 3 ∧ frequency_score 3 ≤ 25)
    ∧ (0 ≤ monetary_score 250 ∧ monetary_score 250 ≤ 25)
    ∧ (0 ≤ support_score 2 ∧ support_score 2 ≤ 10) :=
  c3_sub_score_ranges 12 3 250 2 (by norm_num) (by norm_num) (by norm_num) (by norm_num)

/-! ### Claim C4 -/

/-- C4: on the non-error path, holding all other inputs fixed, the returned
`healthScore` is non-increasing in `daysSinceLastOrder`, non-decreasing in
`totalOrders`, `totalSpent` and `avgRating`, and non-increasing in
`supportTickets`. -/
theorem c4_health_score_monotone :
    (∀ (now : Int) (v1 v2 : PyVal) (o : Int) (s : ℚ) (t : Int) (r : ℚ) (d1 d2 : Int),
        days_since_last_order now v1 = .ok d1 → days_since_last_order now v2 = .ok d2 →
        d1 ≤ d2 →
        (calculate_health_score now ⟨v2, o, s, t, r⟩).health_score ≤
          (calculate_health_score now ⟨v1, o, s, t, r⟩).health_score)
    ∧ (∀ (now : Int) (v : PyVal) (o1 o2 : Int) (s : ℚ) (t : Int) (r : ℚ) (d : Int),
        days_since_last_order now v = .ok d → o1 ≤ o2 →
        (calculate_health_score now ⟨v, o1, s, t, r⟩).health_score ≤
          (calculate_health_score now ⟨v, o2, s, t, r⟩).health_score)
    ∧ (∀ (now : Int) (v : PyVal) (o : Int) (s1 s2 : ℚ) (t : Int) (r : ℚ) (d : Int),
        days_since_last_order now v = .ok d → s1 ≤ s2 →
        (calculate_health_score now ⟨v, o, s1, t, r⟩).health_score ≤
          (calculate_health_score now ⟨v, o, s2, t, r⟩).health_score)
    ∧ (∀ (now : Int) (v : PyVal) (o : Int) (s : ℚ) (t : Int) (r1 r2 : ℚ) (d : Int),
        days_since_last_order now v = .ok d → r1 ≤ r2 →
        (calculate_health_score now ⟨v, o, s, t, r1⟩).health_score ≤
          (calculate_health_score now ⟨v, o, s, t, r2⟩).health_score)
    ∧ (∀ (now : Int) (v : PyVal) (o : Int) (s : ℚ) (t1 t2 : Int) (r : ℚ) (d : Int),
        days_since_last_order now v = .ok d → t1 ≤ t2 →
        (calculate_health_score now ⟨v, o, s, t2, r⟩).health_score ≤
          (calculate_health_score now ⟨v, o, s, t1, r⟩).health_score) := by
  refine ⟨?_, ?_, ?_, ?_, ?_⟩
  · intro now v1 v2 o s t r d1 d2 h1 h2 hd
    rw [calculate_health_score_ok (c := ⟨v1, o, s, t, r⟩) h1,
      calculate_health_score_ok (c := ⟨v2, o, s, t, r⟩) h2]
    exact round2_mono (total_score_anti_days hd)
  · intro now v o1 o2 s t r d h ho
    rw [calculate_health_score_ok (c := ⟨v, o1, s, t, r⟩) h,
      calculate_health_score_ok (c := ⟨v, o2, s, t, r⟩) h]
    exact round2_mono (total_score_mono_orders ho)
  · intro now v o s1 s2 t r d h hs
    rw [calculate_health_score_ok (c := ⟨v, o, s1, t, r⟩) h,
      calculate_health_score_ok (c := ⟨v, o, s2, t, r⟩) h]
    exact round2_mono (total_score_mono_spent hs)
  · intro now v o s t r1 r2 d h hr
    rw [calculate_health_score_ok (c := ⟨v, o, s, t, r1⟩) h,
      calculate_health_score_ok (c := ⟨v, o, s, t, r2⟩) h]
    exact round2_mono (total_score_mono_rating hr)
  · intro now v o s t1 t2 r d h ht
    rw [calculate_health_score_ok (c := ⟨v, o, s, t1, r⟩) h,
      calculate_health_score_ok (c := ⟨v, o, s, t2, r⟩) h]
    exact round2_mono (total_score_anti_tickets ht)

/-- Witness for C4: each monotonicity clause applied at concrete snapshots. -/
theorem c4_witness :
    ((calculate_health_score 0 ⟨.pyDate (-9), 4, 300, 1, 3⟩).health_score ≤
        (calculate_health_score 0 ⟨.pyDate (-2), 4, 300, 1, 3⟩).health_score)
    ∧ ((calculate_health_score 0 ⟨.pyNone, 4, 300, 1, 3⟩).health_score ≤
        (calculate_health_score 0 ⟨.pyNone, 6, 300, 1, 3⟩).health_score)
    ∧ ((calculate_health_score 0 ⟨.pyNone, 4, 300, 1, 3⟩).health_score ≤
        (calculate_health_score 0 ⟨.pyNone, 4, 400, 1, 3⟩).health_score)
    ∧ ((calculate_health_score 0 ⟨.pyNone, 4, 300, 1, 3⟩).health_score ≤
        (calculate_health_score 0 ⟨.pyNone, 4, 300, 1, 4⟩).health_score)
    ∧ ((calculate_health_score 0 ⟨.pyNone, 4, 300, 5, 3⟩).health_score ≤
        (calculate_health_score 0 ⟨.pyNone, 4, 300, 1, 3⟩).health_score) :=
  ⟨c4_health_score_monotone.1 0 (.pyDate (-2)) (.pyDate (-9)) 4 300 1 3 2 9
      (days_since_pyDate 0 (-2)) (days_since_pyDate 0 (-9)) (by norm_num),
   c4_health_score_monotone.2.1 0 .pyNone 4 6 300 1 3 365 rfl (by norm_num),
   c4_health_score_monotone.2.2.1 0 .pyNone 4 300 400 1 3 365 rfl (by norm_num),
   c4_health_score_monotone.2.2.2.1 0 .pyNone 4 300 1 3 4 365 rfl (by norm_num),
   c4_health_score_monotone.2.2.2.2 0 .pyNone 4 300 1 5 3 365 rfl (by norm_num)⟩

/-! ### Claim C5 -/

/-- C5, counterexample: with last order today, 5 orders, `totalSpent = 1999.70`
(non-negative), no tickets and rating 0, the unrounded composite is 69.997 and
the returned (rounded) `healthScore` is 70.0; the code returns
`lifetimeValue = round2(1999.70 * (1 + 69.997/100)) = 3399.43`, whereas the
claimed formula over the returned `healthScore` gives
`round2(1999.70 * (1 + 70/100)) = 3399.49 ≠ 3399.43`. -/
theorem c5_counterexample :
    (0 : ℚ) ≤ 19997/10
    ∧ (calculate_health_score 0 ⟨.pyDate 0, 5, 19997/10, 0, 0⟩).health_score = 70
    ∧ (calculate_health_score 0 ⟨.pyDate 0, 5, 19997/10, 0, 0⟩).lifetime_value = 339943/100
    ∧ round2 ((19997/10 : ℚ) * (1 + 70/100)) = 339949/100
    ∧ (339943/100 : ℚ) ≠ 339949/100 := by
  have hdy : days_since_last_order 0 (.pyDate 0) = .ok 0 := rfl
  rw [calculate_health_score_ok (c := ⟨.pyDate 0, 5, 19997/10, 0, 0⟩) hdy]
  have ht : total_score 0 5 (19997/10) 0 0 = 69997/1000 := by
    unfold total_score recency_score frequency_score monetary_score support_score rating_score
    norm_num
  dsimp only
  rw [ht]
  refine ⟨by norm_num, ?_, ?_, ?_, by norm_num⟩
  · rw [round2_eq_of_half_lt (z := 6999) (by norm_num) (by norm_num)]
    norm_num
  · rw [show (19997/10 : ℚ) * (1 + 69997/1000 / 100) = 3399430009/1000000 by norm_num,
      round2_eq_of_lt_half (z := 339943) (by norm_num) (by norm_num)]
    norm_num
  · rw [round2_eq_self (z := 339949) (by norm_num)]
    norm_num

/-- C5 (amended): on the non-error path with non-negative `totalSpent`, the
returned `lifetimeValue` equals `round2(totalSpent * (1 + T/100))` where `T`
is the **unrounded** composite total score (not the rounded returned
`healthScore`). -/
theorem c5_lifetime_value_formula :
    ∀ (now : Int) (c : Snapshot) (d : Int),
      days_since_last_order now c.last_order_date = .ok d →
      0 ≤ c.total_spent →
      (calculate_health_score now c).lifetime_value =
        round2 (c.total_spent *
          (1 + total_score d c.total_orders c.total_spent c.support_tickets c.avg_rating / 100)) := by
  intro now c d h _
  rw [calculate_health_score_ok h]

/-- Witness for C5 (amended) at a concrete snapshot. -/
theorem c5_witness :
    (calculate_health_score 0 ⟨.pyNone, 3, 800, 2, 4⟩).lifetime_value =
      round2 ((800 : ℚ) * (1 + total_score 365 3 800 2 4 / 100)) :=
  c5_lifetime_value_formula 0 ⟨.pyNone, 3, 800, 2, 4⟩ 365 rfl (by norm_num)

/-! ### Claim C6 -/

/-- C6: for every customer record, `key_factors` evaluates the four
independent boolean triggers in fixed order; `recommended_actions` is exactly
the image of the triggered factor list under the fixed 1:1 recommendation
table, in the same order; both lists have length at most 4 and are empty
precisely when no trigger fires. -/
theorem c6_explainer_fixed_table :
    ∀ (now : Int) (c : CustomerRecord),
      recommended_actions now c = (key_factors now c).map recommendation_table
      ∧ (key_factors now c).length ≤ 4
      ∧ (recommended_actions now c).length ≤ 4
      ∧ (key_factors now c = [] ↔
          ¬(c.total_orders.getD 0 < 2) ∧ ¬(3 < c.support_tickets.getD 0)
            ∧ ¬(c.avg_rating.getD 0 < 3)
            ∧ ∀ d, c.last_order_date = some d → ¬(90 < now - d)) := by
  intro now c
  by_cases h1 : c.total_orders.getD 0 < 2 <;>
    by_cases h2 : 3 < c.support_tickets.getD 0 <;>
      by_cases h3 : c.avg_rating.getD 0 < 3 <;>
  · rcases hl : c.last_order_date with _ | dd
    · simp [key_factors, recommended_actions, recommendation_table, h1, h2, h3, hl]
    · by_cases h4 : 90 < now - dd <;>
        simp [key_factors, recommended_actions, recommendation_table, h1, h2, h3, h4, hl] <;>
        omega

/-- Witness for C6 at a concrete customer record. -/
theorem c6_witness :
    recommended_actions 120 ⟨some 1, some 5, some 2, some 0, none⟩ =
      (key_factors 120 ⟨some 1, some 5, some 2, some 0, none⟩).map recommendation_table :=
  (c6_explainer_fixed_table 120 ⟨some 1, some 5, some 2, some 0, none⟩).1

/-- Scenario C of the spec, as a concrete check of C6: one order, five
tickets, rating 2, last order 120 days ago triggers all four factors in fixed
order with the matching recommendations in the same order. -/
theorem c6_scenario_all_triggers :
    key_factors 120 ⟨some 1, some 5, some 2, some 0, none⟩ =
      ["Low purchase frequency", "High support ticket volume",
       "Low product satisfaction", "No recent purchases"]
    ∧ recommended_actions 120 ⟨some 1, some 5, some 2, some 0, none⟩ =
      ["Send personalized product recommendations", "Assign dedicated account manager",
       "Offer product training or alternatives", "Send re-engagement campaign with discount"] := by
  constructor <;> rfl

/-! ### Claim C7 -/

/-- C7: the all-defaults snapshot with absent `lastOrderDate` gets the fixed
365-day dormancy default, hence sub-scores
`recency = 0, frequency = 0, monetary = 0, support = 10, rating = 0` and the
result `healthScore = 10.0`, `churnRisk = High`, `lifetimeValue = 0.0`. -/
theorem c7_scenario_dormant :
    ∀ now : Int,
      days_since_last_order now .pyNone = .ok 365
      ∧ calculate_health_score now ⟨.pyNone, 0, 0, 0, 0⟩ =
          { health_score := 10, churn_risk := .high, lifetime_value := 0,
            score_breakdown :=
              [("recency", 0), ("frequency", 0), ("monetary", 0),
               ("support", 10), ("rating", 0)] } := by
  intro now
  refine ⟨rfl, ?_⟩
  have hdy : days_since_last_order now .pyNone = .ok 365 := rfl
  rw [calculate_health_score_ok (c := ⟨.pyNone, 0, 0, 0, 0⟩) hdy]
  have hr : recency_score 365 = 0 := by unfold recency_score; norm_num
  have hf : frequency_score 0 = 0 := by unfold frequency_score; norm_num
  have hm : monetary_score 0 = 0 := by unfold monetary_score; norm_num
  have hs : support_score 0 = 10 := by unfold support_score; norm_num
  have hg : rating_score 0 = 0 := by unfold rating_score; norm_num
  have ht : total_score 365 0 0 0 0 = 10 := by
    unfold total_score
    rw [hr, hf, hm, hs, hg]
    norm_num
  dsimp only
  rw [ht, hr, hf, hm, hs, hg]
  have h10 : round2 (10 : ℚ) = 10 := round2_eq_self (z := 1000) (by norm_num)
  have h0 : round2 (0 : ℚ) = 0 := round2_eq_self (z := 0) (by norm_num)
  have hlv : round2 ((0 : ℚ) * (1 + 10 / 100)) = 0 := by
    rw [show (0 : ℚ) * (1 + 10 / 100) = 0 by ring, h0]
  have hcr : churn_risk_of (10 : ℚ) = .high := by
    unfold churn_risk_of
    rw [if_neg (by norm_num), if_neg (by norm_num)]
  rw [h10, h0, hlv, hcr]

/-! ### Claim C8 -/

/-- C8: for every customer record, the reported `churn_probability` is
`round2((100 - healthScore)/100)` — the direct linear inverse of the health
score — where a missing `health_score` is read as 0, yielding probability
1.0. -/
theorem c8_churn_probability_inverse :
    ∀ c : CustomerRecord,
      churn_probability c = round2 ((100 - c.health_score.getD 0) / 100)
      ∧ (∀ h : ℚ, c.health_score = some h →
          churn_probability c = round2 ((100 - h) / 100))
      ∧ (c.health_score = none → churn_probability c = 1) := by
  intro c
  refine ⟨rfl, ?_, ?_⟩
  · intro h hh
    unfold churn_probability
    rw [hh, Option.getD_some]
  · intro hh
    unfold churn_probability
    rw [hh]
    rw [show ((100 : ℚ) - (Option.getD none 0)) / 100 = 1 by norm_num]
    exact round2_eq_self (z := 100) (by norm_num)

/-- Witness for C8: a record with `health_score = 40`, and one with
`health_score` absent. -/
theorem c8_witness :
    churn_probability ⟨none, none, none, none, some 40⟩ = round2 ((100 - 40) / 100)
    ∧ churn_probability ⟨none, none, none, none, none⟩ = 1 :=
  ⟨(c8_churn_probability_inverse ⟨none, none, none, none, some 40⟩).2.1 40 rfl,
   (c8_churn_probability_inverse ⟨none, none, none, none, none⟩).2.2 rfl⟩

/-! ### Claim C9 -/

/-- C9: on the non-error path the breakdown has exactly the five keys
`recency, frequency, monetary, support, rating` in insertion order, each value
the 2-decimal-rounded sub-score, and the returned `health_score` is the
rounding of the sum of the **unrounded** sub-scores; there exists a snapshot
where this differs from the sum of the rounded breakdown entries. -/
theorem c9_breakdown_shape :
    ∀ (now : Int) (c : Snapshot) (d : Int),
      days_since_last_order now c.last_order_date = .ok d →
      ((calculate_health_score now c).score_breakdown.map Prod.fst =
          ["recency", "frequency", "monetary", "support", "rating"]
        ∧ (calculate_health_score now c).score_breakdown =
          [("recency", round2 (recency_score d)),
           ("frequency", round2 (frequency_score c.total_orders)),
           ("monetary", round2 (monetary_score c.total_spent)),
           ("support", round2 (support_score c.support_tickets)),
           ("rating", round2 (rating_score c.avg_rating))]
        ∧ (calculate_health_score now c).health_score =
          round2 (recency_score d + frequency_score c.total_orders
            + monetary_score c.total_spent + support_score c.support_tickets
            + rating_score c.avg_rating))
      ∧ ∃ (now2 : Int) (c2 : Snapshot),
          (calculate_health_score now2 c2).health_score ≠
            ((calculate_health_score now2 c2).score_breakdown.map Prod.snd).sum := by
  intro now c d h
  constructor
  · rw [calculate_health_score_ok h]
    exact ⟨rfl, rfl, rfl⟩
  · refine ⟨365, ⟨.pyDate 0, 0, 2/5, 10, 1/500⟩, ?_⟩
    have hdy : days_since_last_order 365 (.pyDate 0) = .ok 365 := rfl
    rw [calculate_health_score_ok (c := ⟨.pyDate 0, 0, 2/5, 10, 1/500⟩) hdy]
    dsimp only
    have hr : recency_score 365 = 0 := by unfold recency_score; norm_num
    have hf : frequency_score 0 = 0 := by unfold frequency_score; norm_num
    have hm : monetary_score (2/5) = 1/250 := by unfold monetary_score; norm_num
    have hs : support_score 10 = 0 := by unfold support_score; norm_num
    have hg : rating_score (1/500) = 1/250 := by unfold rating_score; norm_num
    have ht : total_score 365 0 (2/5) 10 (1/500) = 1/125 := by
      unfold total_score
      rw [hr, hf, hm, hs, hg]
      norm_num
    rw [ht, hr, hf, hm, hs, hg]
    have h0 : round2 (0 : ℚ) = 0 := round2_eq_self (z := 0) (by norm_num)
    have hsmall : round2 (1/250 : ℚ) = 0 := by
      rw [round2_eq_of_lt_half (z := 0) (by norm_num) (by norm_num)]
      norm_num
    have hsum : round2 (1/125 : ℚ) = 1/100 := by
      rw [round2_eq_of_half_lt (z := 0) (by norm_num) (by norm_num)]
      norm_num
    rw [h0, hsmall, hsum]
    norm_num

/-- Witness for C9 at a concrete snapshot. -/
theorem c9_witness :
    (calculate_health_score 0 ⟨.pyNone, 2, 150, 1, 3⟩).score_breakdown.map Prod.fst =
      ["recency", "frequency", "monetary", "support", "rating"] :=
  ((c9_breakdown_shape 0 ⟨.pyNone, 2, 150, 1, 3⟩ 365 rfl).1).1

/-! ### Claim C10 -/

/-- C10, counterexample: the truthy non-date non-string value `5` (an integer)
also triggers the degraded fallback — `datetime.now() - 5` raises `TypeError`
— so a truthy malformed string is not the only trigger. -/
theorem c10_counterexample :
    PyVal.falsy (.pyInt 5) = false
    ∧ (∀ s, PyVal.pyInt 5 ≠ .pyStr s)
    ∧ days_since_last_order 0 (.pyInt 5) = .error () :=
  ⟨rfl, fun _ h => (nomatch h), rfl⟩

/-- C10 (amended): every falsy `last_order_date` value — `None`/missing key,
empty string, the number zero — yields the 365-day dormancy default without
parsing, so such inputs take the normal long-dormant main path (recency
sub-score 0) and never reach the degraded fallback; the fallback is triggered
exactly by a truthy value that is not a date: a truthy malformed string, or a
truthy non-date non-string value such as a nonzero number. -/
theorem c10_falsy_dormancy_default :
    (∀ (now : Int) (v : PyVal), v.falsy = true → days_since_last_order now v = .ok 365)
    ∧ (∀ now : Int,
        days_since_last_order now .pyNone = .ok 365
        ∧ days_since_last_order now (.pyStr "") = .ok 365
        ∧ days_since_last_order now (.pyInt 0) = .ok 365)
    ∧ recency_score 365 = 0
    ∧ (∀ (now : Int) (c : Snapshot), c.last_order_date.falsy = true →
        (calculate_health_score now c).health_score =
          round2 (total_score 365 c.total_orders c.total_spent c.support_tickets c.avg_rating))
    ∧ (∀ (now : Int) (v : PyVal),
        days_since_last_order now v = .error () ↔
          (∃ s, v = .pyStr s ∧ s ≠ "" ∧ fromisoformat s = none)
          ∨ (∃ n, v = .pyInt n ∧ n ≠ 0)) := by
  have hfal : ∀ (now : Int) (v : PyVal), v.falsy = true →
      days_since_last_order now v = .ok 365 := by
    intro now v h
    unfold days_since_last_order
    rw [h]
    rfl
  refine ⟨hfal, fun now => ⟨rfl, rfl, rfl⟩, by unfold recency_score; norm_num, ?_, ?_⟩
  · intro now c h
    rw [calculate_health_score_ok (d := 365) (hfal now c.last_order_date h)]
  · intro now v
    cases v with
    | pyNone => simp [days_since_last_order, PyVal.falsy]
    | pyDate d => simp [days_since_last_order, PyVal.falsy]
    | pyInt n =>
      by_cases hn : n = 0 <;>
        simp [days_since_last_order, PyVal.falsy, hn]
    | pyStr s =>
      by_cases hs : s = ""
      · simp [days_since_last_order, PyVal.falsy, hs]
      · cases hp : fromisoformat s <;>
          simp [days_since_last_order, PyVal.falsy, hs, hp]

/-- Witness for C10 at concrete falsy inputs. -/
theorem c10_witness :
    days_since_last_order 3 (.pyStr "") = .ok 365
    ∧ (calculate_health_score 3 ⟨.pyStr "", 2, 100, 1, 4⟩).health_score =
        round2 (total_score 365 2 100 1 4) :=
  ⟨c10_falsy_dormancy_default.1 3 (.pyStr "") rfl,
   c10_falsy_dormancy_default.2.2.2.1 3 ⟨.pyStr "", 2, 100, 1, 4⟩ rfl⟩

end CHD
